import Mathlib

/-!
Verification of the input-translation and pointer-frame-coalescing core of
the mywayland example programs, shallowly embedded from the C sources
src/gettext.c and src/waylandbook.example.c.

The xkbcommon library is external: its compiled keymap is modelled as an
abstract symbol table, the compile step (xkb_keymap_new_from_string) and the
possible failure of xkb_state_new as function parameters.  A NULL pointer
handed to a library routine (undefined behavior in C) is modelled by the
routine returning none.
-/

/-- Modifier tuple tracked by an xkb_state: depressed, latched, locked masks
and the active layout group, updated wholesale by xkb_state_update_mask. -/
structure Mods where
  depressed : Nat
  latched : Nat
  locked : Nat
  group : Nat
deriving DecidableEq, Repr

/-- A compiled xkb keymap (external library object): immutable symbol and
text tables, indexed by the current modifier tuple and an XKB keycode. -/
structure XkbKeymap where
  syms : Mods → Nat → List Nat
  oneSym : Mods → Nat → Nat
  utf8 : Mods → Nat → String

/-- A live xkb_state: the keymap it was derived from plus the currently
applied modifier tuple. -/
structure XkbState where
  keymap : XkbKeymap
  mods : Mods

/-- xkb_state_new: builds a fresh state (all-zero modifiers) from a keymap.
Allocation may fail and return NULL; the failure set is the parameter ok. -/
def xkb_state_new (ok : XkbKeymap → Bool) (km : XkbKeymap) : Option XkbState :=
  if ok km then some { keymap := km, mods := ⟨0, 0, 0, 0⟩ } else none

/-- xkb_state_key_get_syms on a possibly-NULL state pointer.  A NULL state is
undefined behavior in the C library, modelled as none. -/
def xkb_state_key_get_syms : Option XkbState → Nat → Option (List Nat)
  | none, _ => none
  | some st, keycode => some (st.keymap.syms st.mods keycode)

/-- xkb_state_key_get_one_sym on a possibly-NULL state pointer. -/
def xkb_state_key_get_one_sym : Option XkbState → Nat → Option Nat
  | none, _ => none
  | some st, keycode => some (st.keymap.oneSym st.mods keycode)

/-- xkb_state_key_get_utf8 on a possibly-NULL state pointer. -/
def xkb_state_key_get_utf8 : Option XkbState → Nat → Option String
  | none, _ => none
  | some st, keycode => some (st.keymap.utf8 st.mods keycode)

/-- xkb_state_update_mask on a possibly-NULL state pointer: replaces the
modifier tuple wholesale (the two layout-index arguments are passed as 0 by
both C callers and are ignored here, as the model keys syms on Mods only). -/
def xkb_state_update_mask : Option XkbState → Nat → Nat → Nat → Nat → Nat → Nat → Option XkbState
  | none, _, _, _, _, _, _ => none
  | some st, dep, lat, lock, _, _, grp =>
      some { st with mods := ⟨dep, lat, lock, grp⟩ }

/-- XKB_KEY_BackSpace keysym constant. -/
def XKB_KEY_BackSpace : Nat := 0xff08

/-- WL_KEYBOARD_KEY_STATE_PRESSED wire constant. -/
def WL_KEYBOARD_KEY_STATE_PRESSED : Nat := 1

/-- The mutable globals of src/gettext.c that the keyboard path touches:
error flag, installed keymap and state, and the printed diagnostics. -/
structure Globals where
  error : Bool
  keymap : Option XkbKeymap
  xkb_state : Option XkbState
  log : List String

/-- What one keyboard_handle_key call in src/gettext.c observably does. -/
inductive KeyMsg where
  | backspacePressed
  | backspaceReleased
  | keyLine (sym : Nat) (pressed : Bool)
  | silent
deriving DecidableEq, Repr

/-- The decision keyboard_handle_key makes once the keysym list for the
looked-up keycode is in hand (spelled out separately so that theorems can
state that the handler's result is a function of the k+8 lookup alone). -/
def keyMsgOfSyms (syms : List Nat) (state : Nat) : KeyMsg :=
  match syms with
  | [] => KeyMsg.silent
  | s0 :: _ =>
      if s0 = XKB_KEY_BackSpace then
        if state = WL_KEYBOARD_KEY_STATE_PRESSED then KeyMsg.backspacePressed
        else KeyMsg.backspaceReleased
      else KeyMsg.keyLine s0 (state = WL_KEYBOARD_KEY_STATE_PRESSED)

/-- keyboard_handle_key of src/gettext.c: converts the Wayland keycode to an
XKB keycode by adding 8, fetches the keysyms through the current xkb_state
(NULL state: undefined), and reports Backspace specially.  num_syms = 0
prints nothing. -/
def keyboard_handle_key (g : Globals) (key state : Nat) : Option KeyMsg :=
  let keycode := key + 8
  match xkb_state_key_get_syms g.xkb_state keycode with
  | none => none
  | some syms =>
      match syms with
      | [] => some KeyMsg.silent
      | s0 :: _ =>
          if s0 = XKB_KEY_BackSpace then
            if state = WL_KEYBOARD_KEY_STATE_PRESSED then some KeyMsg.backspacePressed
            else some KeyMsg.backspaceReleased
          else some (KeyMsg.keyLine s0 (state = WL_KEYBOARD_KEY_STATE_PRESSED))

/-- keyboard_handle_modifiers of src/gettext.c: forwards the four masks to
xkb_state_update_mask on the current (possibly NULL) state. -/
def keyboard_handle_modifiers (g : Globals) (dep lat lock grp : Nat) : Option Globals :=
  match xkb_state_update_mask g.xkb_state dep lat lock 0 0 grp with
  | none => none
  | some st => some { g with xkb_state := some st }

/-- keyboard_handle_keymap of src/gettext.c.  mapped models the result of
mmap (none = MAP_FAILED); compile models xkb_keymap_new_from_string with the
fixed context/format/flags; ok models whether xkb_state_new succeeds.  The
returned Bool records whether close(fd) ran on the taken path (it does on
all of them).  The unrefs of the old pair on the success path are modelled
by the fields being overwritten. -/
def keyboard_handle_keymap (compile : String → Option XkbKeymap)
    (ok : XkbKeymap → Bool) (g : Globals) (mapped : Option String) :
    Globals × Bool :=
  match mapped with
  | none => ({ g with log := g.log ++ ["Failed to mmap keymap"] }, true)
  | some keymap_string =>
      match compile keymap_string with
      | none =>
          ({ g with log := g.log ++ ["Failed to compile keymap"], error := true }, true)
      | some keymap =>
          match xkb_state_new ok keymap with
          | some st => ({ g with keymap := some keymap, xkb_state := some st }, true)
          | none =>
              ({ g with
                 keymap := some keymap
                 xkb_state := none
                 log := g.log ++ ["Failed to create XKB state"]
                 error := true }, true)

/-- The loop guard of main in src/gettext.c:
while (wl_display_dispatch(display) != -1 and not globals.error). -/
def loopContinues (dispatchOk : Bool) (g : Globals) : Bool :=
  dispatchOk && !g.error

/-- WL_KEYBOARD_KEYMAP_FORMAT_XKB_V1 wire constant. -/
def WL_KEYBOARD_KEYMAP_FORMAT_XKB_V1 : Nat := 1

/-- The keyboard-translator slice of client_state in
src/waylandbook.example.c. -/
structure ClientState where
  xkb_keymap : Option XkbKeymap
  xkb_state : Option XkbState

/-- wl_keyboard_keymap of src/waylandbook.example.c.  assert(format == XKB_V1)
and assert(map_shm != MAP_FAILED) abort the process on failure (modelled as
none; note close(fd) has not run at that point).  On compile failure the
NULL keymap is fed to xkb_state_new, which dereferences it: undefined
(none).  On success the old pair is unrefed and the new pair installed; the
Bool records that close(fd) ran. -/
def wl_keyboard_keymap (compile : String → Option XkbKeymap)
    (ok : XkbKeymap → Bool) (cs : ClientState) (format : Nat)
    (mapped : Option String) : Option (ClientState × Bool) :=
  if format = WL_KEYBOARD_KEYMAP_FORMAT_XKB_V1 then
    match mapped with
    | none => none
    | some map_shm =>
        match compile map_shm with
        | none => none
        | some km =>
            some ({ xkb_keymap := some km, xkb_state := xkb_state_new ok km }, true)
  else none

/-- wl_keyboard_key of src/waylandbook.example.c: resolves the keysym and the
UTF-8 text for keycode key + 8 through the current (possibly NULL) state and
reports whether the event was a press. -/
def wl_keyboard_key (cs : ClientState) (key state : Nat) : Option (Nat × String × Bool) :=
  let keycode := key + 8
  match xkb_state_key_get_one_sym cs.xkb_state keycode,
        xkb_state_key_get_utf8 cs.xkb_state keycode with
  | some sym, some text => some (sym, text, state = WL_KEYBOARD_KEY_STATE_PRESSED)
  | _, _ => none

/-- POINTER_EVENT_ENTER bit of enum pointer_event_mask. -/
def POINTER_EVENT_ENTER : Nat := 1

/-- POINTER_EVENT_LEAVE bit of enum pointer_event_mask. -/
def POINTER_EVENT_LEAVE : Nat := 2

/-- POINTER_EVENT_MOTION bit of enum pointer_event_mask. -/
def POINTER_EVENT_MOTION : Nat := 4

/-- POINTER_EVENT_BUTTON bit of enum pointer_event_mask. -/
def POINTER_EVENT_BUTTON : Nat := 8

/-- POINTER_EVENT_AXIS bit of enum pointer_event_mask. -/
def POINTER_EVENT_AXIS : Nat := 16

/-- POINTER_EVENT_AXIS_SOURCE bit of enum pointer_event_mask. -/
def POINTER_EVENT_AXIS_SOURCE : Nat := 32

/-- POINTER_EVENT_AXIS_STOP bit of enum pointer_event_mask. -/
def POINTER_EVENT_AXIS_STOP : Nat := 64

/-- POINTER_EVENT_AXIS_DISCRETE bit of enum pointer_event_mask. -/
def POINTER_EVENT_AXIS_DISCRETE : Nat := 128

/-- The combined axis_events mask tested by wl_pointer_frame. -/
def axis_events : Nat :=
  POINTER_EVENT_AXIS ||| POINTER_EVENT_AXIS_SOURCE |||
    POINTER_EVENT_AXIS_STOP ||| POINTER_EVENT_AXIS_DISCRETE

/-- The C truthiness test (mask and bit) as a Bool. -/
def hasBit (m b : Nat) : Bool := decide (m &&& b ≠ 0)

/-- One entry of the axes[2] array of struct pointer_event: validity flag,
analog value (wl_fixed_t, modelled as Int) and discrete step count. -/
structure AxisEntry where
  valid : Bool
  value : Int
  discrete : Int
deriving DecidableEq, Repr

/-- struct pointer_event of src/waylandbook.example.c: the pending pointer
frame accumulator (axes[0] = vertical, axes[1] = horizontal). -/
structure PointerEvent where
  event_mask : Nat
  surface_x : Int
  surface_y : Int
  button : Nat
  state : Nat
  time : Nat
  serial : Nat
  axes0 : AxisEntry
  axes1 : AxisEntry
  axis_source : Nat
deriving DecidableEq, Repr

/-- The all-zero accumulator, as produced by client_state = zero-init and by
memset(event, 0, sizeof(*event)) at the end of wl_pointer_frame. -/
def emptyEvent : PointerEvent :=
  { event_mask := 0, surface_x := 0, surface_y := 0, button := 0, state := 0,
    time := 0, serial := 0, axes0 := ⟨false, 0, 0⟩, axes1 := ⟨false, 0, 0⟩,
    axis_source := 0 }

/-- The write event->axes[i] := f (event->axes[i]).  The C array has two
entries and the index comes unchecked from the wire: any other index is an
out-of-bounds write (undefined behavior), modelled as none. -/
def setAxis (i : Nat) (f : AxisEntry → AxisEntry) (e : PointerEvent) : Option PointerEvent :=
  if i = 0 then some { e with axes0 := f e.axes0 }
  else if i = 1 then some { e with axes1 := f e.axes1 }
  else none

/-- wl_pointer_enter: marks ENTER and records serial and the shared
surface-local coordinate pair. -/
def wl_pointer_enter (serial : Nat) (x y : Int) (e : PointerEvent) : PointerEvent :=
  { e with
    event_mask := e.event_mask ||| POINTER_EVENT_ENTER
    serial := serial
    surface_x := x
    surface_y := y }

/-- wl_pointer_leave: records serial and marks LEAVE. -/
def wl_pointer_leave (serial : Nat) (e : PointerEvent) : PointerEvent :=
  { e with
    event_mask := e.event_mask ||| POINTER_EVENT_LEAVE
    serial := serial }

/-- wl_pointer_motion: marks MOTION and records time and the shared
surface-local coordinate pair. -/
def wl_pointer_motion (time : Nat) (x y : Int) (e : PointerEvent) : PointerEvent :=
  { e with
    event_mask := e.event_mask ||| POINTER_EVENT_MOTION
    time := time
    surface_x := x
    surface_y := y }

/-- wl_pointer_button: marks BUTTON and records time, serial, button and
press state. -/
def wl_pointer_button (serial time btn st : Nat) (e : PointerEvent) : PointerEvent :=
  { e with
    event_mask := e.event_mask ||| POINTER_EVENT_BUTTON
    time := time
    serial := serial
    button := btn
    state := st }

/-- wl_pointer_axis: marks AXIS, records time, then writes
axes[axis].valid := true and axes[axis].value := value (index unchecked). -/
def wl_pointer_axis (time : Nat) (axis : Nat) (value : Int) (e : PointerEvent) :
    Option PointerEvent :=
  setAxis axis (fun a => { a with valid := true, value := value })
    { e with event_mask := e.event_mask ||| POINTER_EVENT_AXIS, time := time }

/-- wl_pointer_axis_source: marks AXIS_SOURCE and records the source tag. -/
def wl_pointer_axis_source (source : Nat) (e : PointerEvent) : PointerEvent :=
  { e with
    event_mask := e.event_mask ||| POINTER_EVENT_AXIS_SOURCE
    axis_source := source }

/-- wl_pointer_axis_stop: records time, marks AXIS_STOP, then writes
axes[axis].valid := true (index unchecked). -/
def wl_pointer_axis_stop (time : Nat) (axis : Nat) (e : PointerEvent) :
    Option PointerEvent :=
  setAxis axis (fun a => { a with valid := true })
    { e with event_mask := e.event_mask ||| POINTER_EVENT_AXIS_STOP, time := time }

/-- wl_pointer_axis_discrete: marks AXIS_DISCRETE, then writes
axes[axis].valid := true and axes[axis].discrete := discrete (index
unchecked). -/
def wl_pointer_axis_discrete (axis : Nat) (discrete : Int) (e : PointerEvent) :
    Option PointerEvent :=
  setAxis axis (fun a => { a with valid := true, discrete := discrete })
    { e with event_mask := e.event_mask ||| POINTER_EVENT_AXIS_DISCRETE }

/-- One per-axis block printed by wl_pointer_frame for a valid axis entry:
each sub-line is emitted iff the corresponding frame-global mask bit is set
(the source-name table lookup itself is not modelled). -/
structure AxisReport where
  axis : Nat
  value : Option Int
  discrete : Option Int
  source : Option Nat
  stopped : Bool
deriving DecidableEq, Repr

/-- The coalesced snapshot wl_pointer_frame emits (prints) for one frame. -/
structure Snapshot where
  time : Nat
  entered : Option (Int × Int)
  left : Bool
  moved : Option (Int × Int)
  buttoned : Option (Nat × Nat)
  axisReports : List AxisReport
deriving DecidableEq, Repr

/-- The snapshot of a frame with no prior fragments. -/
def emptySnapshot : Snapshot :=
  { time := 0, entered := none, left := false, moved := none, buttoned := none,
    axisReports := [] }

/-- The per-axis block of wl_pointer_frame's axis loop for index i, emitted
only when axes[i].valid. -/
def axisReport (e : PointerEvent) (i : Nat) (a : AxisEntry) : Option AxisReport :=
  if a.valid then
    some { axis := i
           value := if hasBit e.event_mask POINTER_EVENT_AXIS then some a.value else none
           discrete := if hasBit e.event_mask POINTER_EVENT_AXIS_DISCRETE then some a.discrete else none
           source := if hasBit e.event_mask POINTER_EVENT_AXIS_SOURCE then some e.axis_source else none
           stopped := hasBit e.event_mask POINTER_EVENT_AXIS_STOP }
  else none

/-- The snapshot printed by wl_pointer_frame of src/waylandbook.example.c:
each top-level field is reported iff its mask bit is set, and the axis loop
runs only when some axis-family bit is set, reporting each valid axis. -/
def frameSnapshot (e : PointerEvent) : Snapshot :=
  { time := e.time
    entered := if hasBit e.event_mask POINTER_EVENT_ENTER then
        some (e.surface_x, e.surface_y) else none
    left := hasBit e.event_mask POINTER_EVENT_LEAVE
    moved := if hasBit e.event_mask POINTER_EVENT_MOTION then
        some (e.surface_x, e.surface_y) else none
    buttoned := if hasBit e.event_mask POINTER_EVENT_BUTTON then
        some (e.button, e.state) else none
    axisReports := if hasBit e.event_mask axis_events then
        List.filterMap id [axisReport e 0 e.axes0, axisReport e 1 e.axes1]
      else [] }

/-- wl_pointer_frame: emits the snapshot and memsets the accumulator back to
all-zero. -/
def wl_pointer_frame (e : PointerEvent) : Snapshot × PointerEvent :=
  (frameSnapshot e, emptyEvent)

/-- The continuous value the snapshot reports for axis index i, if any. -/
def Snapshot.axisValue (s : Snapshot) (i : Nat) : Option Int :=
  match s.axisReports.find? (fun r => r.axis == i) with
  | some r => r.value
  | none => none

/-- The discrete step the snapshot reports for axis index i, if any. -/
def Snapshot.axisDiscreteVal (s : Snapshot) (i : Nat) : Option Int :=
  match s.axisReports.find? (fun r => r.axis == i) with
  | some r => r.discrete
  | none => none

/-- Whether the accumulator's axis entry i carries the touched flag. -/
def axisValid (e : PointerEvent) (i : Nat) : Bool :=
  if i = 0 then e.axes0.valid else e.axes1.valid

/-- One raw pointer fragment call, as dispatched by wl_pointer_listener. -/
inductive PtrFrag where
  | enter (serial : Nat) (x y : Int)
  | leave (serial : Nat)
  | motion (time : Nat) (x y : Int)
  | button (serial time btn st : Nat)
  | axis (time : Nat) (axis : Nat) (value : Int)
  | axisSource (source : Nat)
  | axisStop (time : Nat) (axis : Nat)
  | axisDiscrete (axis : Nat) (discrete : Int)
deriving DecidableEq, Repr

/-- Dispatch of one fragment to its handler. -/
def applyFrag (e : PointerEvent) : PtrFrag → Option PointerEvent
  | PtrFrag.enter s x y => some (wl_pointer_enter s x y e)
  | PtrFrag.leave s => some (wl_pointer_leave s e)
  | PtrFrag.motion t x y => some (wl_pointer_motion t x y e)
  | PtrFrag.button s t b st => some (wl_pointer_button s t b st e)
  | PtrFrag.axis t a v => wl_pointer_axis t a v e
  | PtrFrag.axisSource src => some (wl_pointer_axis_source src e)
  | PtrFrag.axisStop t a => wl_pointer_axis_stop t a e
  | PtrFrag.axisDiscrete a d => wl_pointer_axis_discrete a d e

/-- Run a sequence of fragments against the accumulator. -/
def runFrags : List PtrFrag → PointerEvent → Option PointerEvent
  | [], e => some e
  | f :: t, e =>
      match applyFrag e f with
      | none => none
      | some e2 => runFrags t e2

/-- The event_mask bit a given fragment ORs in. -/
def fragBit : PtrFrag → Nat
  | PtrFrag.enter _ _ _ => POINTER_EVENT_ENTER
  | PtrFrag.leave _ => POINTER_EVENT_LEAVE
  | PtrFrag.motion _ _ _ => POINTER_EVENT_MOTION
  | PtrFrag.button _ _ _ _ => POINTER_EVENT_BUTTON
  | PtrFrag.axis _ _ _ => POINTER_EVENT_AXIS
  | PtrFrag.axisSource _ => POINTER_EVENT_AXIS_SOURCE
  | PtrFrag.axisStop _ _ => POINTER_EVENT_AXIS_STOP
  | PtrFrag.axisDiscrete _ _ => POINTER_EVENT_AXIS_DISCRETE

/-- The union of the mask bits touched by a fragment sequence. -/
def touchedMask (l : List PtrFrag) : Nat :=
  l.foldl (fun m f => m ||| fragBit f) 0

/-- WL_SEAT_CAPABILITY_POINTER wire bit. -/
def WL_SEAT_CAPABILITY_POINTER : Nat := 1

/-- WL_SEAT_CAPABILITY_KEYBOARD wire bit. -/
def WL_SEAT_CAPABILITY_KEYBOARD : Nat := 2

/-- The device slots of client_state that wl_seat_capabilities manages
(true = the object is currently attached / non-NULL). -/
structure SeatState where
  wl_pointer : Bool
  wl_keyboard : Bool
deriving DecidableEq, Repr

/-- wl_seat_capabilities of src/waylandbook.example.c: attaches the pointer
(resp. keyboard) when the capability is present and the slot is NULL, and
releases it when the capability is absent and the slot is non-NULL. -/
def wl_seat_capabilities (capabilities : Nat) (s : SeatState) : SeatState :=
  let have_pointer := hasBit capabilities WL_SEAT_CAPABILITY_POINTER
  let s1 :=
    if have_pointer && !s.wl_pointer then { s with wl_pointer := true }
    else if !have_pointer && s.wl_pointer then { s with wl_pointer := false }
    else s
  let have_keyboard := hasBit capabilities WL_SEAT_CAPABILITY_KEYBOARD
  if have_keyboard && !s1.wl_keyboard then { s1 with wl_keyboard := true }
  else if !have_keyboard && s1.wl_keyboard then { s1 with wl_keyboard := false }
  else s1

/-- A concrete compiled keymap for tests: XKB keycode 38 resolves to keysym
97 (letter a) with text "a"; every other keycode resolves to nothing. -/
def kmA : XkbKeymap :=
  { syms := fun _ c => if c = 38 then [97] else []
    oneSym := fun _ c => if c = 38 then 97 else 0
    utf8 := fun _ c => if c = 38 then "a" else "" }

/-- A live state derived from kmA with all-zero modifiers. -/
def stA : XkbState := { keymap := kmA, mods := ⟨0, 0, 0, 0⟩ }

/-- A Ready waylandbook client: kmA installed with its state. -/
def readyClient : ClientState := { xkb_keymap := some kmA, xkb_state := some stA }

/-- Ready gettext globals: kmA installed with its state, no error. -/
def readyGettext : Globals :=
  { error := false, keymap := some kmA, xkb_state := some stA, log := [] }

/-- Uninitialized gettext globals: zero-initialized, no keymap ever
installed (xkb_state and keymap are NULL). -/
def uninitGlobals : Globals :=
  { error := false, keymap := none, xkb_state := none, log := [] }

/-- A compile step that rejects every input (malformed keymap bytes). -/
def badCompile : String → Option XkbKeymap := fun _ => none

/-- An xkb_state_new that always succeeds. -/
def okAlways : XkbKeymap → Bool := fun _ => true

/-- A single-motion fragment sequence for concrete frame evaluation. -/
def c1frags : List PtrFrag := [PtrFrag.motion 10 1 2]

/-- The accumulator after running c1frags from empty. -/
def cMotionEvent : PointerEvent := wl_pointer_motion 10 1 2 emptyEvent

/-- A fragment sequence touching only the axis-0 continuous value and the
axis-1 discrete step. -/
def c1badFrags : List PtrFrag := [PtrFrag.axis 10 0 5, PtrFrag.axisDiscrete 1 3]

/-- The accumulator after axis(t=1, axis=0, v=3) then axis(t=2, axis=0, v=4)
from empty. -/
def cAxisEvent : PointerEvent :=
  { emptyEvent with event_mask := 16, time := 2, axes0 := ⟨true, 4, 0⟩ }

/-- Bitwise and distributes over bitwise or on Nat, from the right. -/
theorem and_lor_distrib (m n b : Nat) : (m ||| n) &&& b = (m &&& b) ||| (n &&& b) := by
  apply Nat.eq_of_testBit_eq
  intro i
  simp [Nat.testBit_and, Nat.testBit_or, Bool.and_or_distrib_right]

/-- A bitwise or is zero iff both operands are. -/
theorem lor_zero_iff (x y : Nat) : x ||| y = 0 ↔ x = 0 ∧ y = 0 := by
  constructor
  · intro h
    refine ⟨Nat.eq_of_testBit_eq fun i => ?_, Nat.eq_of_testBit_eq fun i => ?_⟩
    · have h2 : (x ||| y).testBit i = Nat.testBit 0 i := by rw [h]
      simp [Nat.testBit_or] at h2
      simp [h2.1]
    · have h2 : (x ||| y).testBit i = Nat.testBit 0 i := by rw [h]
      simp [Nat.testBit_or] at h2
      simp [h2.2]
  · rintro ⟨rfl, rfl⟩
    rfl

/-- hasBit distributes over bitwise or. -/
theorem hasBit_or (m n b : Nat) : hasBit (m ||| n) b = (hasBit m b || hasBit n b) := by
  unfold hasBit
  rw [and_lor_distrib]
  by_cases h1 : m &&& b = 0 <;> by_cases h2 : n &&& b = 0 <;>
    simp [h1, h2, lor_zero_iff]

/-- Each successful fragment call ORs exactly its own bit into event_mask. -/
theorem applyFrag_mask (e e2 : PointerEvent) (f : PtrFrag)
    (h : applyFrag e f = some e2) :
    e2.event_mask = e.event_mask ||| fragBit f := by
  cases f with
  | enter s x y =>
      simp only [applyFrag, Option.some.injEq] at h
      subst h; rfl
  | leave s =>
      simp only [applyFrag, Option.some.injEq] at h
      subst h; rfl
  | motion t x y =>
      simp only [applyFrag, Option.some.injEq] at h
      subst h; rfl
  | button s t b st =>
      simp only [applyFrag, Option.some.injEq] at h
      subst h; rfl
  | axisSource src =>
      simp only [applyFrag, Option.some.injEq] at h
      subst h; rfl
  | axis t a v =>
      simp only [applyFrag, wl_pointer_axis, setAxis] at h
      split at h
      · simp only [Option.some.injEq] at h; subst h; rfl
      · split at h
        · simp only [Option.some.injEq] at h; subst h; rfl
        · exact absurd h (by simp)
  | axisStop t a =>
      simp only [applyFrag, wl_pointer_axis_stop, setAxis] at h
      split at h
      · simp only [Option.some.injEq] at h; subst h; rfl
      · split at h
        · simp only [Option.some.injEq] at h; subst h; rfl
        · exact absurd h (by simp)
  | axisDiscrete a d =>
      simp only [applyFrag, wl_pointer_axis_discrete, setAxis] at h
      split at h
      · simp only [Option.some.injEq] at h; subst h; rfl
      · split at h
        · simp only [Option.some.injEq] at h; subst h; rfl
        · exact absurd h (by simp)

/-- Across a successful fragment run the final event_mask is the initial one
with each fragment's bit ORed in. -/
theorem runFrags_mask (l : List PtrFrag) (e e2 : PointerEvent)
    (h : runFrags l e = some e2) :
    e2.event_mask = l.foldl (fun m f => m ||| fragBit f) e.event_mask := by
  induction l generalizing e with
  | nil =>
      simp only [runFrags, Option.some.injEq] at h
      subst h; rfl
  | cons f t ih =>
      cases ha : applyFrag e f with
      | none => simp [runFrags, ha] at h
      | some e1 =>
          simp only [runFrags, ha] at h
          rw [List.foldl_cons, ← applyFrag_mask e e1 f ha]
          exact ih e1 h

/-- Claim C4 (code bug): the axis-family handlers of src/waylandbook.example.c
do not reject an out-of-range axis index.  They write axes[axis] with the
unchecked wire index, so axis = 2 is an out-of-bounds store into the
two-element array (undefined behavior, modelled as none) instead of the
defensive ignore the claim requires. -/
theorem axis_oob_not_rejected :
    wl_pointer_axis 0 2 5 emptyEvent = none ∧
    wl_pointer_axis_stop 0 2 emptyEvent = none ∧
    wl_pointer_axis_discrete 2 1 emptyEvent = none :=
  ⟨rfl, rfl, rfl⟩

/-- Claim C5 (code bug): in the Uninitialized state (zero-initialized
globals, no keymap ever installed) keyboard_handle_key and
keyboard_handle_modifiers of src/gettext.c pass the NULL xkb_state straight
into xkb_state_key_get_syms / xkb_state_update_mask — a null dereference
inside the library (modelled as none), not the guarded no-op the claim
requires. -/
theorem uninit_translation_undefined :
    keyboard_handle_key uninitGlobals 30 1 = none ∧
    keyboard_handle_modifiers uninitGlobals 1 0 0 0 = none :=
  ⟨rfl, rfl⟩

/-- Claim C6 counterexample: in src/waylandbook.example.c a mapping refusal
(mmap returning MAP_FAILED) hits assert(map_shm != MAP_FAILED), which aborts
the process before close(fd) ever runs — the call neither closes the handle
nor reports failure, falsifying the every-path-closes claim. -/
theorem wb_keymap_mmap_failure_aborts :
    wl_keyboard_keymap (fun _ => some kmA) okAlways readyClient 1 none = none :=
  rfl

/-- Claim C6 (amended): in the src/gettext.c variant the claim holds:
keyboard_handle_keymap closes the source fd on every path (success, compile
failure, state-construction failure, and mmap failure), and on mmap failure
it returns normally having only logged a diagnostic. -/
theorem keymap_fd_closed_on_all_paths
    (compile : String → Option XkbKeymap) (ok : XkbKeymap → Bool)
    (g : Globals) (mapped : Option String) :
    (keyboard_handle_keymap compile ok g mapped).2 = true ∧
    (keyboard_handle_keymap compile ok g none).1 =
      { g with log := g.log ++ ["Failed to mmap keymap"] } := by
  constructor
  · cases mapped with
    | none => rfl
    | some s =>
        cases hc : compile s with
        | none => simp [keyboard_handle_keymap, hc]
        | some km =>
            cases hn : xkb_state_new ok km <;>
              simp [keyboard_handle_keymap, hc, hn]
  · rfl

/-- Claim C7 counterexample: a keymap compile failure in src/gettext.c sets
globals.error via errorOccurred, and the main loop guard
(dispatch != -1 and not error) is then false: the recoverable error
terminates the event loop, falsifying the loop-keeps-running claim. -/
theorem compile_failure_terminates_loop :
    (keyboard_handle_keymap badCompile okAlways uninitGlobals (some "bad")).1.error = true ∧
    loopContinues true (keyboard_handle_keymap badCompile okAlways uninitGlobals (some "bad")).1 = false :=
  ⟨rfl, rfl⟩

/-- Claim C7 (amended): a compile failure or state-construction failure in
keyboard_handle_keymap of src/gettext.c produces exactly one diagnostic and
returns without crashing, but it sets the error flag, and the main event
loop of main() then stops at its next guard test regardless of dispatch
status — an orderly termination rather than the continued running the claim
states. -/
theorem keymap_failure_stops_event_loop
    (compile : String → Option XkbKeymap) (ok : XkbKeymap → Bool)
    (g : Globals) (bytes : String)
    (h : compile bytes = none ∨ ∃ km, compile bytes = some km ∧ ok km = false) :
    (∃ m, (keyboard_handle_keymap compile ok g (some bytes)).1.log = g.log ++ [m]) ∧
    (keyboard_handle_keymap compile ok g (some bytes)).1.error = true ∧
    ∀ d, loopContinues d (keyboard_handle_keymap compile ok g (some bytes)).1 = false := by
  rcases h with hc | ⟨km, hc, hok⟩
  · refine ⟨⟨"Failed to compile keymap", ?_⟩, ?_, ?_⟩ <;>
      simp [keyboard_handle_keymap, hc, loopContinues]
  · refine ⟨⟨"Failed to create XKB state", ?_⟩, ?_, ?_⟩ <;>
      simp [keyboard_handle_keymap, hc, xkb_state_new, hok, loopContinues]

/-- Claim C7 witness: the amended theorem applied to a concrete failing
compile on Ready globals. -/
theorem keymap_failure_stops_event_loop_witness :
    (keyboard_handle_keymap badCompile okAlways readyGettext (some "bad")).1.error = true :=
  (keymap_failure_stops_event_loop badCompile okAlways readyGettext "bad" (Or.inl rfl)).2.1

/-- Claim C10: wl_seat_capabilities of src/waylandbook.example.c is
idempotent — after one delivery each device slot equals exactly the
corresponding capability bit (attached only when the capability is present
and the slot was empty, released only when absent and occupied), so a
repeated delivery of the same bitmask changes nothing. -/
theorem seat_capabilities_idempotent (caps : Nat) (s : SeatState) :
    wl_seat_capabilities caps (wl_seat_capabilities caps s) = wl_seat_capabilities caps s ∧
    (wl_seat_capabilities caps s).wl_pointer = hasBit caps WL_SEAT_CAPABILITY_POINTER ∧
    (wl_seat_capabilities caps s).wl_keyboard = hasBit caps WL_SEAT_CAPABILITY_KEYBOARD := by
  obtain ⟨p, k⟩ := s
  cases hp : hasBit caps WL_SEAT_CAPABILITY_POINTER <;>
    cases hk : hasBit caps WL_SEAT_CAPABILITY_KEYBOARD <;>
      cases p <;> cases k <;>
        simp [wl_seat_capabilities, hp, hk]

/-- Claim C9: struct pointer_event has a single shared surface_x/surface_y
pair; after enter(serial, x1, y1) then motion(t, x2, y2) within one frame,
wl_pointer_frame reports the last-written coordinates (x2, y2) both for the
enter field and the motion field. -/
theorem enter_motion_share_coords (e : PointerEvent) (serial t : Nat) (x1 y1 x2 y2 : Int) :
    (wl_pointer_frame (wl_pointer_motion t x2 y2 (wl_pointer_enter serial x1 y1 e))).1.entered
      = some (x2, y2) ∧
    (wl_pointer_frame (wl_pointer_motion t x2 y2 (wl_pointer_enter serial x1 y1 e))).1.moved
      = some (x2, y2) := by
  have h1 : hasBit POINTER_EVENT_ENTER POINTER_EVENT_ENTER = true := by decide
  have h2 : hasBit POINTER_EVENT_MOTION POINTER_EVENT_MOTION = true := by decide
  constructor <;>
    simp [wl_pointer_frame, frameSnapshot, wl_pointer_motion, wl_pointer_enter,
      hasBit_or, h1, h2]

/-- The axis handler at index 0, reduced to its record update. -/
theorem wl_pointer_axis_zero (t : Nat) (v : Int) (e : PointerEvent) :
    wl_pointer_axis t 0 v e =
      some { e with
             event_mask := e.event_mask ||| POINTER_EVENT_AXIS
             time := t
             axes0 := ⟨true, v, e.axes0.discrete⟩ } := rfl

/-- The axis handler at index 1, reduced to its record update. -/
theorem wl_pointer_axis_one (t : Nat) (v : Int) (e : PointerEvent) :
    wl_pointer_axis t 1 v e =
      some { e with
             event_mask := e.event_mask ||| POINTER_EVENT_AXIS
             time := t
             axes1 := ⟨true, v, e.axes1.discrete⟩ } := rfl

/-- Claim C8: two axis() calls for the same valid axis index within one frame
overwrite: the snapshot emitted at the next frame() carries exactly the
second value for that axis, and the axis entry is marked touched. -/
theorem axis_second_value_wins (e e2 : PointerEvent) (t1 t2 a : Nat) (v1 v2 : Int)
    (ha : a < 2)
    (hrun : (wl_pointer_axis t1 a v1 e).bind (wl_pointer_axis t2 a v2) = some e2) :
    (wl_pointer_frame e2).1.axisValue a = some v2 ∧ axisValid e2 a = true := by
  have hax : hasBit POINTER_EVENT_AXIS axis_events = true := by decide
  have haa : hasBit POINTER_EVENT_AXIS POINTER_EVENT_AXIS = true := by decide
  interval_cases a
  · simp only [wl_pointer_axis_zero, Option.some_bind, Option.some.injEq] at hrun
    subst hrun
    cases hv : e.axes1.valid <;>
      simp [wl_pointer_frame, frameSnapshot, Snapshot.axisValue, axisValid, axisReport,
        hasBit_or, hax, haa, hv, List.find?]
  · simp only [wl_pointer_axis_one, Option.some_bind, Option.some.injEq] at hrun
    subst hrun
    cases hv : e.axes0.valid <;>
      simp [wl_pointer_frame, frameSnapshot, Snapshot.axisValue, axisValid, axisReport,
        hasBit_or, hax, haa, hv, List.find?]

/-- Claim C8 witness: the theorem applied to axis(1,0,3) then axis(2,0,4)
from the empty accumulator. -/
theorem axis_second_value_wins_witness :
    (wl_pointer_frame cAxisEvent).1.axisValue 0 = some 4 ∧ axisValid cAxisEvent 0 = true :=
  axis_second_value_wins emptyEvent cAxisEvent 1 2 0 3 4 (by decide) rfl

/-- Claim C1 counterexample: the fragment run axis(10, axis=0, value=5) then
axisDiscrete(axis=1, steps=3) touches only the axis-0 continuous value and
the axis-1 discrete step, yet the snapshot wl_pointer_frame emits reports a
continuous value of 0 for axis 1 and a discrete step of 0 for axis 0 —
untouched sub-fields delivered as zero defaults, because each per-axis
sub-line is gated on the frame-global mask bit, not on which axis set it. -/
theorem frame_reports_untouched_as_zero :
    (runFrags c1badFrags emptyEvent).map
        (fun e => ((wl_pointer_frame e).1.axisValue 1, (wl_pointer_frame e).1.axisDiscreteVal 0))
      = some (some 0, some 0) := rfl

/-- Claim C1 (amended): at the granularity of the event mask the claim holds
for every in-bounds fragment run from an empty accumulator: the final mask
is exactly the union of the touched bits; the enter, leave, motion and
button parts of the emitted snapshot are present iff their bits were
touched; the zero-fragment frame emits the all-absent snapshot; and every
frame() resets the accumulator to empty.  (The per-axis sub-fields are not
exact: see the counterexample.) -/
theorem frame_mask_exactness (l : List PtrFrag) (e : PointerEvent)
    (h : runFrags l emptyEvent = some e) :
    e.event_mask = touchedMask l ∧
    (wl_pointer_frame e).1.entered.isSome = hasBit (touchedMask l) POINTER_EVENT_ENTER ∧
    (wl_pointer_frame e).1.left = hasBit (touchedMask l) POINTER_EVENT_LEAVE ∧
    (wl_pointer_frame e).1.moved.isSome = hasBit (touchedMask l) POINTER_EVENT_MOTION ∧
    (wl_pointer_frame e).1.buttoned.isSome = hasBit (touchedMask l) POINTER_EVENT_BUTTON ∧
    (wl_pointer_frame emptyEvent).1 = emptySnapshot ∧
    (wl_pointer_frame e).2 = emptyEvent := by
  have hm : e.event_mask = touchedMask l := runFrags_mask l emptyEvent e h
  refine ⟨hm, ?_, ?_, ?_, ?_, rfl, rfl⟩ <;> rw [← hm]
  · cases hb : hasBit e.event_mask POINTER_EVENT_ENTER <;>
      simp [wl_pointer_frame, frameSnapshot, hb]
  · cases hb : hasBit e.event_mask POINTER_EVENT_LEAVE <;>
      simp [wl_pointer_frame, frameSnapshot, hb]
  · cases hb : hasBit e.event_mask POINTER_EVENT_MOTION <;>
      simp [wl_pointer_frame, frameSnapshot, hb]
  · cases hb : hasBit e.event_mask POINTER_EVENT_BUTTON <;>
      simp [wl_pointer_frame, frameSnapshot, hb]

/-- Claim C1 witness: the amended theorem applied to the single-motion run. -/
theorem frame_mask_exactness_witness :
    cMotionEvent.event_mask = touchedMask c1frags :=
  (frame_mask_exactness c1frags cMotionEvent rfl).1

/-- Claim C2 counterexample: in src/waylandbook.example.c a Ready translator
(kmA installed, key 30 resolving to keysym 97 with text "a") hit by a keymap
event whose bytes fail to compile does not keep its previous pair: the
handler unconditionally feeds the NULL compile result to xkb_state_new and
unrefs the old keymap and state, so the call has no defined completed state
(none) instead of leaving the Ready pair active. -/
theorem wb_keymap_failure_loses_translator :
    wl_keyboard_key readyClient 30 1 = some (97, "a", true) ∧
    wl_keyboard_keymap badCompile okAlways readyClient 1 (some "garbage") = none :=
  ⟨rfl, rfl⟩

/-- Claim C2 (amended): the claim holds for the src/gettext.c variant: when
the bytes fail to compile, keyboard_handle_keymap leaves the installed
keymap and xkb_state fields exactly as they were, keyboard_handle_key
returns identical results before and after the failed call, and on every
path a live xkb_state is derived from the currently installed keymap (no
dangling pair). -/
theorem keymap_install_failure_preserves_translator
    (compile : String → Option XkbKeymap) (ok : XkbKeymap → Bool)
    (g : Globals) (bytes : String) (hfail : compile bytes = none)
    (hwf : ∀ st, g.xkb_state = some st → g.keymap = some st.keymap) :
    (keyboard_handle_keymap compile ok g (some bytes)).1.keymap = g.keymap ∧
    (keyboard_handle_keymap compile ok g (some bytes)).1.xkb_state = g.xkb_state ∧
    (∀ key st, keyboard_handle_key (keyboard_handle_keymap compile ok g (some bytes)).1 key st
        = keyboard_handle_key g key st) ∧
    (∀ mapped st, (keyboard_handle_keymap compile ok g mapped).1.xkb_state = some st →
        (keyboard_handle_keymap compile ok g mapped).1.keymap = some st.keymap) := by
  refine ⟨?_, ?_, ?_, ?_⟩
  · simp [keyboard_handle_keymap, hfail]
  · simp [keyboard_handle_keymap, hfail]
  · intro key st
    simp [keyboard_handle_keymap, hfail, keyboard_handle_key]
  · intro mapped st hst
    cases mapped with
    | none =>
        simp only [keyboard_handle_keymap] at hst ⊢
        exact hwf st hst
    | some s =>
        cases hc : compile s with
        | none =>
            simp only [keyboard_handle_keymap, hc] at hst ⊢
            exact hwf st hst
        | some km =>
            cases hok : ok km with
            | true =>
                simp only [keyboard_handle_keymap, hc, xkb_state_new, hok, if_pos,
                  Option.some.injEq] at hst ⊢
                rw [← hst]
            | false =>
                simp [keyboard_handle_keymap, hc, xkb_state_new, hok] at hst

/-- Claim C2 witness: the amended theorem applied to a concrete Ready
gettext translator and a failing compile. -/
theorem keymap_install_failure_preserves_translator_witness :
    (keyboard_handle_keymap badCompile okAlways readyGettext (some "bad")).1.keymap
      = readyGettext.keymap :=
  (keymap_install_failure_preserves_translator badCompile okAlways readyGettext "bad" rfl
    (fun st hst => by cases Option.some.inj hst; rfl)).1

/-- Claim C3: both key handlers perform translation against the installed
state using exactly the hardware code plus 8, applied once at the
translation boundary: keyboard_handle_key of src/gettext.c is a function of
the keysym list at key + 8, and wl_keyboard_key of
src/waylandbook.example.c resolves keysym and UTF-8 text at key + 8. -/
theorem key_translation_uses_plus_eight
    (g : Globals) (cs : ClientState) (st st2 : XkbState)
    (hg : g.xkb_state = some st) (hcs : cs.xkb_state = some st2) (key state : Nat) :
    keyboard_handle_key g key state =
      some (keyMsgOfSyms (st.keymap.syms st.mods (key + 8)) state) ∧
    wl_keyboard_key cs key state =
      some (st2.keymap.oneSym st2.mods (key + 8), st2.keymap.utf8 st2.mods (key + 8),
        decide (state = WL_KEYBOARD_KEY_STATE_PRESSED)) := by
  constructor
  · simp only [keyboard_handle_key, hg, xkb_state_key_get_syms, keyMsgOfSyms]
    cases st.keymap.syms st.mods (key + 8) with
    | nil => rfl
    | cons s0 tl =>
        by_cases hb : s0 = XKB_KEY_BackSpace <;>
          by_cases hs : state = WL_KEYBOARD_KEY_STATE_PRESSED <;>
            simp [hb, hs]
  · simp [wl_keyboard_key, hcs, xkb_state_key_get_one_sym, xkb_state_key_get_utf8]

/-- Claim C3 witness: on the concrete keymap kmA (which maps XKB keycode 38
and nothing else), raw hardware code 30 resolves through keycode 38 to
keysym 97, while a table keyed by the raw code 30 directly resolves to
nothing — the offset is applied exactly once, at the boundary. -/
theorem key_translation_uses_plus_eight_witness :
    keyboard_handle_key readyGettext 30 1 = some (KeyMsg.keyLine 97 true) ∧
    kmA.syms ⟨0, 0, 0, 0⟩ 30 = [] :=
  ⟨((key_translation_uses_plus_eight readyGettext readyClient stA stA rfl rfl 30 1).1).trans rfl,
    rfl⟩
